import Mathlib

/-!
# Verification of the InterChat server core (server.js)

Shallow embedding of the translation router, the send-message handler, the
conversations post-filter and the SSE broadcaster of the InterChat Express
server, together with proofs of the specification's claims about them.

JavaScript values flowing through the handlers are modelled by the inductive
type `Json` below (objects are association lists with unique keys, as produced
by `JSON.parse`).  External HTTP calls (`fetch` + `response.json()`) are
modelled by an oracle structure `World` whose fields map the request that the
code builds to an arbitrary outcome: `.error msg` stands for a rejected
promise (network failure or a `json()` parse failure) carrying the thrown
error's message, `.ok resp` for a settled response.  A JavaScript exception is
modelled as `Except.error` carrying the error message.
-/

/-- A JavaScript/JSON value as seen by the handlers.  `undef` is the JS value
`undefined` (e.g. the result of reading an absent object property); `obj`
models a JS object as an association list whose keys are unique (the shape
produced by `JSON.parse` / `bodyParser.json`). -/
inductive Json where
  | null : Json
  | undef : Json
  | bool : Bool → Json
  | num : Int → Json
  | str : String → Json
  | arr : List Json → Json
  | obj : List (String × Json) → Json
deriving Repr

/-- JavaScript truthiness of a value: `undefined`, `null`, `false`, `0` and
`""` are falsy, every other value (including empty arrays and objects) is
truthy. -/
def Json.truthy : Json → Bool
  | .null => false
  | .undef => false
  | .bool b => b
  | .num n => n != 0
  | .str s => s != ""
  | .arr _ => true
  | .obj _ => true

/-- First binding of a key in an association list, `undef` when absent. -/
def jsLookup : List (String × Json) → String → Json
  | [], _ => .undef
  | kv :: rest, k => if kv.1 = k then kv.2 else jsLookup rest k

/-- Property access `o.k` on a value that is known not to be nullish (reading
a property of a non-object primitive yields `undefined`; none of the accessed
keys collides with a built-in property of primitives). -/
def Json.get : Json → String → Json
  | .obj fs, k => jsLookup fs k
  | _, _ => (.undef)

/-- One step of optional chaining `o?.k`: nullish bases short-circuit to
`undefined` instead of throwing. -/
def optGet (o : Json) (k : String) : Json :=
  match o with
  | .null => .undef
  | .undef => .undef
  | v => v.get k

/-- One step of optional chaining with an index, `o?.[i]`. -/
def optIdx (o : Json) (i : Nat) : Json :=
  match o with
  | .null => .undef
  | .undef => .undef
  | .arr xs => (xs.get? i).getD .undef
  | .str s => match s.toList.get? i with
      | some c => .str (String.singleton c)
      | none => .undef
  | .obj fs => jsLookup fs (toString i)
  | _ => (.undef)

/-- `a || b` on JS values: the first operand when truthy, otherwise the
second. -/
def jsOr (a b : Json) : Json :=
  if a.truthy then a else b

/-- Default-parameter application: a declared default replaces the argument
exactly when the argument is `undefined`. -/
def jsDefault (v d : Json) : Json :=
  match v with
  | .undef => d
  | _ => v

mutual

/-- JS `ToString` of a value (template literals, string concatenation and the
WHATWG `USVString` conversion).  Arrays stringify as their elements joined
with commas and objects as `[object Object]`, per `Array.prototype.toString`
and `Object.prototype.toString`. -/
def jsToString : Json → String
  | .null => "null"
  | .undef => "undefined"
  | .bool true => "true"
  | .bool false => "false"
  | .num n => toString n
  | .str s => s
  | .arr xs => jsJoinElems xs
  | .obj _ => "[object Object]"

/-- `Array.prototype.join(',')`: `null` and `undefined` elements become the
empty string. -/
def jsJoinElems : List Json → String
  | [] => ""
  | [x] => jsJoinElem x
  | x :: y :: rest => jsJoinElem x ++ "," ++ jsJoinElems (y :: rest)

/-- A single element under `Array.prototype.join`. -/
def jsJoinElem : Json → String
  | .null => ""
  | .undef => ""
  | v => jsToString v

end

/-- Escape of one character inside a JSON string literal (the cases produced
by the values this server serializes). -/
def jsonEscapeChar (c : Char) : String :=
  if c = '"' then "\\\""
  else if c = '\\' then "\\\\"
  else if c = '\n' then "\\n"
  else if c = '\r' then "\\r"
  else if c = '\t' then "\\t"
  else String.singleton c

/-- Escape of a JSON string literal body. -/
def jsonEscape (s : String) : String :=
  String.join (s.toList.map jsonEscapeChar)

mutual

/-- `JSON.stringify` of a value; `none` for `undefined`, which is not
serializable (an `undefined` object property is omitted, an `undefined` array
element serializes as `null`). -/
def Json.stringifyCore : Json → Option String
  | .undef => none
  | .null => some "null"
  | .bool true => some "true"
  | .bool false => some "false"
  | .num n => some (toString n)
  | .str s => some ("\"" ++ jsonEscape s ++ "\"")
  | .arr xs => some ("[" ++ String.intercalate "," (stringifyItems xs) ++ "]")
  | .obj fs => some ("\x7b" ++ String.intercalate "," (stringifyFields fs) ++ "\x7d")

/-- Array elements under `JSON.stringify`. -/
def stringifyItems : List Json → List String
  | [] => []
  | x :: rest => (Json.stringifyCore x).getD "null" :: stringifyItems rest

/-- Object fields under `JSON.stringify`; `undefined`-valued properties are
omitted. -/
def stringifyFields : List (String × Json) → List String
  | [] => []
  | (k, x) :: rest =>
      match Json.stringifyCore x with
      | none => stringifyFields rest
      | some v => ("\"" ++ jsonEscape k ++ "\":" ++ v) :: stringifyFields rest

end

/-- `JSON.stringify` as used in a template literal: a top-level `undefined`
interpolates as the string `undefined`. -/
def Json.stringify (v : Json) : String :=
  (Json.stringifyCore v).getD "undefined"

/-- ASCII uppercasing of a string, character by character
(`String.prototype.toUpperCase` on the language codes this server
handles). -/
def strToUpper (s : String) : String :=
  String.mk (s.data.map Char.toUpper)

/-- `s.toUpperCase()` seen as a JS method call: a `TypeError` when the
receiver is not a string. -/
def jsToUpperCase (v : Json) : Except String String :=
  match v with
  | .str s => .ok (strToUpper s)
  | _ => .error "TypeError: toUpperCase is not a function"

/-- Whether the pattern (second argument) occurs at the head of the
haystack (first argument). -/
def subHere : List Char → List Char → Bool
  | _, [] => true
  | [], _ :: _ => false
  | c :: cs, d :: ds => c == d && subHere cs ds

/-- Whether the pattern (second argument) occurs anywhere in the haystack
(first argument). -/
def hasSub : List Char → List Char → Bool
  | [], pat => subHere [] pat
  | c :: rest, pat => subHere (c :: rest) pat || hasSub rest pat

/-- `s.includes('message')` on a string: substring containment. -/
def strIncludesMessage (s : String) : Bool :=
  hasSub s.data "message".data

/-- Plain (non-optional) property access `o.k`: throws a `TypeError` when the
base is `null` or `undefined`. -/
def jsGetProp (o : Json) (k : String) : Except String Json :=
  match o with
  | .null => .error ("TypeError: Cannot read properties of null (reading " ++ k ++ ")")
  | .undef => .error ("TypeError: Cannot read properties of undefined (reading " ++ k ++ ")")
  | v => .ok (v.get k)

/-- `sourceLang === 'auto'`: strict equality against the string literal, true
only for the string value `auto`. -/
def isAutoLang : Json → Bool
  | .str s => s == "auto"
  | _ => false

/-! ## Configuration (environment, read once at startup, lines 8–24) -/

/-- The environment-derived constants of `server.js`.  Each field models the
raw `process.env.*` value: `none` is an unset variable, `some s` a variable
set to `s` (so `some ""` is set-but-empty, which is falsy in JS). -/
structure Config where
  TRANSLATE_PROVIDER_ENV : Option String
  DEEPL_API_KEY : Option String
  LIBRE_URL_ENV : Option String
  LIBRE_API_KEY : Option String
  OPENAI_API_KEY : Option String
  OPENPHONE_FROM : Option String
  OPENPHONE_USER_ID : Option String
deriving Repr

/-- Truthiness of an environment value: set and non-empty. -/
def envTruthy : Option String → Bool
  | some s => s != ""
  | none => false

/-- An environment value as the JS value it denotes (`undefined` when
unset). -/
def envJson : Option String → Json
  | some s => .str s
  | none => (.undef)

/-- `TRANSLATE_PROVIDER = process.env.TRANSLATE_PROVIDER || 'LIBRE'`
(line 18). -/
def Config.TRANSLATE_PROVIDER (c : Config) : String :=
  match c.TRANSLATE_PROVIDER_ENV with
  | some s => if s = "" then "LIBRE" else s
  | none => "LIBRE"

/-- `LIBRE_URL = process.env.LIBRE_URL || 'https://libretranslate.com'`
(line 20). -/
def Config.LIBRE_URL (c : Config) : String :=
  match c.LIBRE_URL_ENV with
  | some s => if s = "" then "https://libretranslate.com" else s
  | none => "https://libretranslate.com"

/-- The same configuration with the translation-provider selector replaced
and every other setting unchanged. -/
def Config.setProvider (c : Config) (p : Option String) : Config :=
  ⟨p, c.DEEPL_API_KEY, c.LIBRE_URL_ENV, c.LIBRE_API_KEY, c.OPENAI_API_KEY,
   c.OPENPHONE_FROM, c.OPENPHONE_USER_ID⟩

/-! ## External HTTP world -/

/-- The settled value of one `fetch`: the `ok` flag, the status code, and the
outcome of `response.json()` (which may itself reject with a parse error). -/
structure Resp where
  ok : Bool
  status : Int
  json : Except String Json

/-- A DeepL request as the code builds it: the `DeepL-Auth-Key …` header and
the form-encoded body entries, in order. -/
structure DeepLRequest where
  authHeaderValue : String
  body : List (String × String)
deriving Repr, DecidableEq

/-- A LibreTranslate request: resolved URL, optional bearer header, JSON
body. -/
structure LibreRequest where
  url : String
  authHeaderValue : Option String
  body : Json
deriving Repr

/-- The behaviour of every external HTTP endpoint the server talks to.  Each
field maps the request the code constructs to the outcome of the `fetch` +
`response.json()` pair: `.error msg` is a rejected promise (network error,
malformed JSON, …) whose thrown error carries `msg`.  The claims quantify
over all worlds, i.e. over every possible back-end behaviour. -/
structure World where
  deepl : DeepLRequest → Except String Resp
  libre : LibreRequest → Except String Resp
  openai : Json → Except String Resp
  openphoneSend : Json → Except String Resp

/-! ## Translation module (lines 37–132) -/

/-- WHATWG `URLSearchParams` record initialisation: every own enumerable
property of the record is kept, and its value converted with `ToString` — so
a property whose value is `undefined` is serialized as the literal string
`undefined`, not omitted. -/
def urlSearchParamsOfRecord (fs : List (String × Json)) : List (String × String) :=
  fs.map (fun kv => (kv.1, jsToString kv.2))

/-- The body `new URLSearchParams({ text, target_lang: targetLang.toUpperCase(),
source_lang: sourceLang === 'auto' ? undefined : sourceLang.toUpperCase() })`
of `translateWithDeepL` (lines 67–71).  `toUpperCase` throws on non-string
receivers. -/
def deeplRequestBody (text targetLang sourceLang : Json) : Except String (List (String × String)) := do
  let tl ← jsToUpperCase targetLang
  let sl ← if isAutoLang sourceLang then pure Json.undef
           else do pure (Json.str (← jsToUpperCase sourceLang))
  pure (urlSearchParamsOfRecord
    [("text", text), ("target_lang", Json.str tl), ("source_lang", sl)])

/-- `translateWithDeepL` (lines 58–76): fail fast without an API key, POST the
form-encoded body, parse the JSON, return `data.translations?.[0]?.text ||
text`. -/
def translateWithDeepL (cfg : Config) (w : World) (text targetLang sourceLang : Json) :
    Except String Json :=
  if !envTruthy cfg.DEEPL_API_KEY then .error "DEEPL_API_KEY not configured"
  else do
    let body ← deeplRequestBody text targetLang sourceLang
    let resp ← w.deepl ⟨"DeepL-Auth-Key " ++ jsToString (envJson cfg.DEEPL_API_KEY), body⟩
    let data ← resp.json
    let translations ← jsGetProp data "translations"
    pure (jsOr (optGet (optIdx translations 0) "text") text)

/-- The LibreTranslate request of `translateWithLibre` (lines 79–91): URL
`LIBRE_URL + '/translate'`, bearer header when `LIBRE_API_KEY` is truthy, and
JSON body `{ q, source, target }` with `source` passed through as `'auto'`
when unspecified. -/
def libreRequest (cfg : Config) (text targetLang sourceLang : Json) : LibreRequest :=
  ⟨cfg.LIBRE_URL ++ "/translate",
   (match cfg.LIBRE_API_KEY with
    | some s => if s = "" then none else some ("Bearer " ++ s)
    | none => none),
   Json.obj [("q", text),
             ("source", if isAutoLang sourceLang then Json.str "auto" else sourceLang),
             ("target", targetLang)]⟩

/-- `translateWithLibre` (lines 78–95): POST the JSON body, parse the JSON,
return `data.translatedText || text`. -/
def translateWithLibre (cfg : Config) (w : World) (text targetLang sourceLang : Json) :
    Except String Json := do
  let resp ← w.libre (libreRequest cfg text targetLang sourceLang)
  let data ← resp.json
  let translated ← jsGetProp data "translatedText"
  pure (jsOr translated text)

/-- `translateWithGoogle` (lines 97–101): always throws. -/
def translateWithGoogle (_text _targetLang _sourceLang : Json) : Except String Json :=
  .error "Google Translate not implemented in this MVP"

/-- The system prompt of `translateWithOpenAI` (line 106). -/
def openAISystemPrompt (targetLang : Json) : String :=
  "Você é um tradutor cuidadoso. Traduza para " ++ jsToString targetLang ++
    ". Preserve significado e tom. Não traduza trechos em blocos de código Markdown. Responda somente com a tradução."

/-- The user prompt `(prompt || '') + '\n\nIdioma destino: …'` of
`translateWithOpenAI` (line 107). -/
def openAIUserPrompt (text targetLang prompt : Json) : String :=
  jsToString (jsOr prompt (Json.str "")) ++ "\n\nIdioma destino: " ++
    jsToString targetLang ++ "\nTexto:\n" ++ jsToString text

/-- The chat-completions request body of `translateWithOpenAI`
(lines 115–122). -/
def openAIRequestBody (text targetLang prompt : Json) : Json :=
  Json.obj [("model", Json.str "gpt-4o-mini"),
            ("temperature", Json.num 0),
            ("messages", Json.arr
              [Json.obj [("role", Json.str "system"),
                         ("content", Json.str (openAISystemPrompt targetLang))],
               Json.obj [("role", Json.str "user"),
                         ("content", Json.str (openAIUserPrompt text targetLang prompt))]])]

/-- The thrown message `data?.error?.message || 'OpenAI error: ' + status` of
`translateWithOpenAI` (line 127); a non-string truthy `message` is coerced by
the `Error` constructor. -/
def openAIErrorMessage (data : Json) (status : Int) : String :=
  let m := optGet (optGet data "error") "message"
  if m.truthy then jsToString m else "OpenAI error: " ++ toString status

/-- `data?.choices?.[0]?.message?.content?.trim()` of `translateWithOpenAI`
(line 130): `undefined` when the chain short-circuits, a `TypeError` when the
`content` is a non-string non-nullish value. -/
def openAIExtractContent (data : Json) : Except String Json :=
  match optGet (optGet (optIdx (optGet data "choices") 0) "message") "content" with
  | .null => .ok .undef
  | .undef => .ok .undef
  | .str s => .ok (.str s.trim)
  | _ => .error "TypeError: trim is not a function"

/-- `translateWithOpenAI` (lines 104–132): fail fast without a key, POST the
chat request, parse the JSON, throw on a non-ok response, otherwise return
the trimmed first completion or fall back to `text`. -/
def translateWithOpenAI (cfg : Config) (w : World) (text targetLang prompt : Json) :
    Except String Json :=
  if !envTruthy cfg.OPENAI_API_KEY then .error "OPENAI_API_KEY not configured"
  else do
    let resp ← w.openai (openAIRequestBody text targetLang prompt)
    let data ← resp.json
    if !resp.ok then
      Except.error (openAIErrorMessage data resp.status)
    else do
      let translated ← openAIExtractContent data
      pure (jsOr translated text)

/-- The `switch (TRANSLATE_PROVIDER)` dispatch inside the `try` of
`translateText` (lines 41–51); the `'LIBRE'` case and the `default` case both
run the LibreTranslate back-end. -/
def translateAttempt (cfg : Config) (w : World) (text targetLang sourceLang prompt : Json) :
    Except String Json :=
  match cfg.TRANSLATE_PROVIDER with
  | "DEEPL" => translateWithDeepL cfg w text targetLang sourceLang
  | "GOOGLE" => translateWithGoogle text targetLang sourceLang
  | "OPENAI" => translateWithOpenAI cfg w text targetLang prompt
  | _ => translateWithLibre cfg w text targetLang sourceLang

/-- `translateText(text, targetLang, sourceLang = 'auto', prompt = '')`
(lines 37–56): identity pass-through when `text` or `targetLang` is falsy,
otherwise the dispatched attempt with every exception caught and converted
into returning the original `text`. -/
def translateText (cfg : Config) (w : World) (text targetLang sourceLangArg promptArg : Json) :
    Except String Json :=
  let sourceLang := jsDefault sourceLangArg (Json.str "auto")
  let prompt := jsDefault promptArg (Json.str "")
  if !text.truthy || !targetLang.truthy then .ok text
  else
    match translateAttempt cfg w text targetLang sourceLang prompt with
    | .ok r => .ok r
    | .error _ => .ok text

/-! ## GET /api/conversations post-filter (lines 170–177) -/

/-- The filter callback
`c => Array.isArray(c.participants) && c.participants.length === 1`
(line 173) evaluated with JS semantics: reading `participants` of a `null` or
`undefined` entry throws a `TypeError`. -/
def soloPred (c : Json) : Except String Bool :=
  match jsGetProp c "participants" with
  | .error e => .error e
  | .ok (.arr ps) => .ok (ps.length == 1)
  | .ok _ => .ok false

/-- The same predicate as a total Boolean on entries whose `participants`
read does not throw. -/
def isSoloConversation (c : Json) : Bool :=
  match c.get "participants" with
  | .arr ps => ps.length == 1
  | _ => false

/-- Whether an entry is not nullish, i.e. the filter callback cannot throw on
it. -/
def jsNotNullish : Json → Bool
  | .null => false
  | .undef => false
  | _ => true

/-- `data.data.filter(…)` of the conversations route (line 173): the callback
runs left to right, the first throw aborts the whole filter (and the route's
`catch` then answers 500). -/
def conversationsFilter : List Json → Except String (List Json)
  | [] => .ok []
  | c :: rest =>
      match soloPred c with
      | .error e => .error e
      | .ok true =>
          match conversationsFilter rest with
          | .ok l => .ok (c :: l)
          | .error e => .error e
      | .ok false => conversationsFilter rest

/-! ## POST /api/messages handler (lines 273–323) -/

/-- The outcome of one handler invocation: HTTP status, JSON response body,
and the payload passed to the provider's send endpoint (`none` when the
handler returned before issuing the send call). -/
structure SendOutcome where
  status : Int
  respBody : Json
  sent : Option Json

/-- `const fromNumber = from || OPENPHONE_FROM` (line 281). -/
def resolveFrom (cfg : Config) (fromV : Json) : Json :=
  jsOr fromV (envJson cfg.OPENPHONE_FROM)

/-- The prompt string passed to the translation call by the send handler
(lines 291 and 297). -/
def sendTranslatePrompt (targetLang : Json) : String :=
  "Traduza para " ++ jsToString targetLang ++
    ", preserve sentido e tom, não traduza blocos de código Markdown, responda somente com a tradução."

/-- The upstream payload `{ content, from, to: Array.isArray(to) ? to : [to] }`
plus the conditional `userId` property (lines 301–309). -/
def sendPayload (cfg : Config) (toV userIdV translatedText fromNumber : Json) : Json :=
  let toField := match toV with
    | .arr xs => Json.arr xs
    | v => Json.arr [v]
  let base := [("content", translatedText), ("from", fromNumber), ("to", toField)]
  if envTruthy cfg.OPENPHONE_USER_ID || userIdV.truthy then
    Json.obj (base ++ [("userId", jsOr userIdV (envJson cfg.OPENPHONE_USER_ID))])
  else
    Json.obj base

/-- The tail of the handler after translation (lines 301–322): build the
payload, POST it to `${OPENPHONE_API}/messages`, forward the provider's
status and body verbatim; a rejected fetch or JSON parse is caught by the
route's `catch`, which answers 500. -/
def finishSend (cfg : Config) (w : World) (toV userIdV translatedText fromNumber : Json) :
    SendOutcome :=
  let payload := sendPayload cfg toV userIdV translatedText fromNumber
  match w.openphoneSend payload with
  | .error _ => ⟨500, Json.obj [("error", Json.str "Falha ao enviar mensagem")], some payload⟩
  | .ok resp =>
      match resp.json with
      | .error _ => ⟨500, Json.obj [("error", Json.str "Falha ao enviar mensagem")], some payload⟩
      | .ok data => ⟨resp.status, data, some payload⟩

/-- The `POST /api/messages` handler (lines 273–323).  Request bodies are the
objects/arrays admitted by `bodyParser.json` (strict mode), so the
destructuring of `req.body` cannot throw and absent fields read as
`undefined`. -/
def postMessages (cfg : Config) (w : World) (body : Json) : SendOutcome :=
  let text := body.get "text"
  let toV := body.get "to"
  let fromV := body.get "from"
  let targetLang := body.get "targetLang"
  let sourceLang := body.get "sourceLang"
  let userIdV := body.get "userId"
  let strict := body.get "strict"
  if !text.truthy || !toV.truthy then
    ⟨400, Json.obj [("error", Json.str "text e to são obrigatórios")], none⟩
  else
    let fromNumber := resolveFrom cfg fromV
    if !fromNumber.truthy then
      ⟨400, Json.obj [("error", Json.str "from ausente. Configure OPENPHONE_FROM ou envie no corpo.")], none⟩
    else
      if targetLang.truthy then
        if strict.truthy then
          match translateWithOpenAI cfg w text targetLang (Json.str (sendTranslatePrompt targetLang)) with
          | .error m =>
              ⟨500, Json.obj [("error", Json.str "Falha na tradução"),
                              ("provider", Json.str "openai"),
                              ("details", Json.str m)], none⟩
          | .ok translatedText => finishSend cfg w toV userIdV translatedText fromNumber
        else
          match translateText cfg w text targetLang sourceLang (Json.str (sendTranslatePrompt targetLang)) with
          | .error _ =>
              -- unreachable: `translateText` never rejects; a rejection would
              -- hit the route's catch-all (500 "Falha ao enviar mensagem")
              ⟨500, Json.obj [("error", Json.str "Falha ao enviar mensagem")], none⟩
          | .ok translatedText => finishSend cfg w toV userIdV translatedText fromNumber
      else
        finishSend cfg w toV userIdV text fromNumber

/-! ## SSE broadcaster (lines 344–370) and webhook (lines 372–387) -/

/-- The wire string ``event: ${type}\ndata: ${JSON.stringify(payload)}\n\n``
(line 362). -/
def sseSerialize (type : String) (payload : Json) : String :=
  "event: " ++ type ++ "\ndata: " ++ Json.stringify payload ++ "\n\n"

/-- The `for (const client of sseClients)` loop of `broadcast`
(lines 363–369).  A subscriber is an element of the registry list (insertion
order); `write c data` is `client.write(data)`, whose rejection models the
thrown write error.  Returns (clients delivered to, registry afterwards): a
successful write keeps the client, a throwing write is caught and the client
deleted, and the loop always continues with the remaining clients. -/
def broadcastGo {α : Type} (write : α → String → Except String Unit) (data : String) :
    List α → List α × List α
  | [] => ([], [])
  | c :: rest =>
      match write c data with
      | .ok _ =>
          let (d, r) := broadcastGo write data rest
          (c :: d, c :: r)
      | .error _ => broadcastGo write data rest

/-- `broadcast(type, payload)` (lines 361–370): serialize once, then try the
write on every currently registered subscriber. -/
def broadcast {α : Type} (write : α → String → Except String Unit)
    (clients : List α) (type : String) (payload : Json) : List α × List α :=
  broadcastGo write (sseSerialize type payload) clients

/-- `event?.type?.includes('message')` (line 378) with JS semantics: nullish
short-circuits yield `undefined` (falsy); a string `type` tests substring
containment; an array `type` has an `includes` method (SameValueZero
membership); any other non-nullish `type` has no `includes` method, so the
call throws a `TypeError`. -/
def typeIncludesMessage (event : Json) : Except String Bool :=
  match event with
  | .null => .ok false
  | .undef => .ok false
  | e =>
      match e.get "type" with
      | .null => .ok false
      | .undef => .ok false
      | .str s => .ok (strIncludesMessage s)
      | .arr xs => .ok (xs.any (fun x => match x with | .str s => s == "message" | _ => false))
      | _ => .error "TypeError: event.type.includes is not a function"

/-- The observable outcome of one webhook invocation: HTTP status, JSON
response body, the registry afterwards, and whether `broadcast` ran. -/
structure WebhookOutcome (α : Type) where
  status : Int
  respBody : Json
  clients : List α
  didBroadcast : Bool

/-- The `POST /webhooks/openphone` handler (lines 373–387): broadcast the
event to all subscribers when its type denotes a message event, answer
`200 {ok: true}`; a thrown error (e.g. the `includes` call on a `type`
without that method) is caught and answered `500 {ok: false}`. -/
def webhookOpenphone {α : Type} (write : α → String → Except String Unit)
    (clients : List α) (event : Json) : WebhookOutcome α :=
  match typeIncludesMessage event with
  | .error _ => ⟨500, Json.obj [("ok", Json.bool false)], clients, false⟩
  | .ok true =>
      let (_, remaining) := broadcast write clients "openphone" event
      ⟨200, Json.obj [("ok", Json.bool true)], remaining, true⟩
  | .ok false => ⟨200, Json.obj [("ok", Json.bool true)], clients, false⟩

/-! ## Shared helper lemmas and concrete fixtures -/

/-- A configuration that selects the (unimplemented) Google back-end, has no
OpenAI key, and a configured default sender. -/
def cfgGoogle : Config :=
  ⟨some "GOOGLE", none, none, none, none, some "+15550001111", none⟩

/-- A world in which every external endpoint rejects with a network error. -/
def worldDown : World :=
  ⟨fun _ => .error "network down", fun _ => .error "network down",
   fun _ => .error "network down", fun _ => .error "network down"⟩

theorem broadcastGo_eq_filter {α : Type} (write : α → String → Except String Unit)
    (data : String) (clients : List α) :
    broadcastGo write data clients
      = (clients.filter (fun c => (write c data).isOk),
         clients.filter (fun c => (write c data).isOk)) := by
  induction clients with
  | nil => rfl
  | cons c rest ih =>
      simp only [broadcastGo, List.filter]
      cases h : write c data with
      | ok u => simp [h, ih, Except.isOk, Except.toBool]
      | error e => simp [h, ih, Except.isOk, Except.toBool]

/-! ## C1 -/

/-- C1: for every registry state (any list of subscribers, any `N ≥ 0`) and
every event `(type, payload)`, `broadcast` attempts the serialized write on
every currently registered subscriber and no failure escapes the per-client
`try`/`catch` (the function is total and the loop always reaches the end of
the list): the event is delivered to exactly the subscribers whose write
succeeds, and the registry afterwards consists of exactly those same
subscribers — each failing subscriber has been removed, without affecting
delivery to the others. -/
theorem broadcast_fault_isolation {α : Type} (write : α → String → Except String Unit)
    (clients : List α) (type : String) (payload : Json) :
    broadcast write clients type payload
      = (clients.filter (fun c => (write c (sseSerialize type payload)).isOk),
         clients.filter (fun c => (write c (sseSerialize type payload)).isOk)) := by
  unfold broadcast
  exact broadcastGo_eq_filter write (sseSerialize type payload) clients

/-! ## C2 -/

/-- C2: a non-strict `translateText` call never rejects, whatever the inputs
and whatever the configured back-end does (network error, non-2xx response,
malformed JSON, missing credential — the `World` and `Config` are universally
quantified); and whenever the dispatched translation attempt throws, the
catch at the top-level entry point returns the original `text` unchanged. -/
theorem translateText_nonstrict_never_raises (cfg : Config) (w : World)
    (text targetLang sourceLangArg promptArg : Json) :
    (translateText cfg w text targetLang sourceLangArg promptArg).isOk = true
  ∧ ((translateAttempt cfg w text targetLang (jsDefault sourceLangArg (Json.str "auto"))
        (jsDefault promptArg (Json.str ""))).isOk = false →
      translateText cfg w text targetLang sourceLangArg promptArg = .ok text) := by
  unfold translateText
  constructor
  · split
    · rfl
    · cases h : translateAttempt cfg w text targetLang
        (jsDefault sourceLangArg (Json.str "auto")) (jsDefault promptArg (Json.str "")) <;>
        simp [h, Except.isOk, Except.toBool]
  · intro hfail
    split
    · rfl
    · cases h : translateAttempt cfg w text targetLang
        (jsDefault sourceLangArg (Json.str "auto")) (jsDefault promptArg (Json.str "")) with
      | ok r => rw [h] at hfail; simp [Except.isOk, Except.toBool] at hfail
      | error e => simp [h]

/-- Witness for C2 at a concrete input: the Google back-end always throws, so
the attempt fails and the original text comes back. -/
theorem translateText_nonstrict_never_raises_witness :
    translateText cfgGoogle worldDown (Json.str "hi") (Json.str "pt") Json.undef Json.undef
      = .ok (Json.str "hi") :=
  (translateText_nonstrict_never_raises cfgGoogle worldDown
    (Json.str "hi") (Json.str "pt") Json.undef Json.undef).2 (by rfl)

/-! ## C3 -/

/-- C3: for every `POST /api/messages` body with `strict` set, a `targetLang`
present, non-missing `text` and `to`, and a resolvable sender, if the strict
translation attempt (always the OpenAI back-end) fails then the handler
answers 500 with the provider name and the failure detail, does not
substitute the original text, and never issues the upstream send call
(`sent = none`). -/
theorem strict_translation_failure_is_500 (cfg : Config) (w : World) (body : Json) (m : String)
    (htext : (body.get "text").truthy = true)
    (hto : (body.get "to").truthy = true)
    (hfrom : (resolveFrom cfg (body.get "from")).truthy = true)
    (htl : (body.get "targetLang").truthy = true)
    (hstrict : (body.get "strict").truthy = true)
    (hfail : translateWithOpenAI cfg w (body.get "text") (body.get "targetLang")
        (Json.str (sendTranslatePrompt (body.get "targetLang"))) = .error m) :
    postMessages cfg w body
      = ⟨500, Json.obj [("error", Json.str "Falha na tradução"),
                        ("provider", Json.str "openai"),
                        ("details", Json.str m)], none⟩ := by
  unfold postMessages
  simp [htext, hto, hfrom, htl, hstrict, hfail]

/-- Witness for C3: missing OpenAI key makes the strict attempt throw its
configuration error, which the handler surfaces as the 500 detail. -/
theorem strict_translation_failure_is_500_witness :
    postMessages cfgGoogle worldDown
        (Json.obj [("text", Json.str "hi"), ("to", Json.str "+15551234567"),
                   ("targetLang", Json.str "pt"), ("strict", Json.bool true)])
      = ⟨500, Json.obj [("error", Json.str "Falha na tradução"),
                        ("provider", Json.str "openai"),
                        ("details", Json.str "OPENAI_API_KEY not configured")], none⟩ :=
  strict_translation_failure_is_500 cfgGoogle worldDown
    (Json.obj [("text", Json.str "hi"), ("to", Json.str "+15551234567"),
               ("targetLang", Json.str "pt"), ("strict", Json.bool true)])
    "OPENAI_API_KEY not configured" (by rfl) (by rfl) (by rfl) (by rfl) (by rfl) (by rfl)

/-! ## C7 -/

/-- C7: a `POST /api/messages` body whose `text` or `to` is missing or empty
(more generally, falsy) is answered 400 with no upstream call — the outcome
is a constant that mentions neither the translation back-ends nor the
provider send endpoint, and `sent = none`; likewise, when both are present
but no sender is resolvable from the body's `from` or the configured
default, the handler answers 400 before any upstream call. -/
theorem post_messages_missing_fields_400 (cfg : Config) (w : World) (body : Json) :
    (((body.get "text").truthy = false ∨ (body.get "to").truthy = false) →
       postMessages cfg w body
         = ⟨400, Json.obj [("error", Json.str "text e to são obrigatórios")], none⟩)
  ∧ ((body.get "text").truthy = true → (body.get "to").truthy = true →
       (resolveFrom cfg (body.get "from")).truthy = false →
       postMessages cfg w body
         = ⟨400, Json.obj [("error", Json.str "from ausente. Configure OPENPHONE_FROM ou envie no corpo.")], none⟩) := by
  constructor
  · intro h
    unfold postMessages
    rcases h with h | h <;> simp [h]
  · intro htext hto hfrom
    unfold postMessages
    simp [htext, hto, hfrom]

/-- Witness for C7: the empty body has neither `text` nor `to`, and a body
with both but no `from` anywhere is refused with the sender error. -/
theorem post_messages_missing_fields_400_witness :
    postMessages cfgGoogle worldDown (Json.obj [])
      = ⟨400, Json.obj [("error", Json.str "text e to são obrigatórios")], none⟩ :=
  (post_messages_missing_fields_400 cfgGoogle worldDown (Json.obj [])).1 (Or.inl (by rfl))

/-! ## C4 -/

theorem finishSend_sent (cfg : Config) (w : World) (toV userIdV translatedText fromNumber : Json) :
    (finishSend cfg w toV userIdV translatedText fromNumber).sent
      = some (sendPayload cfg toV userIdV translatedText fromNumber) := by
  simp only [finishSend]
  split
  · rfl
  · split <;> rfl

theorem sendPayload_content (cfg : Config) (toV userIdV translatedText fromNumber : Json) :
    (sendPayload cfg toV userIdV translatedText fromNumber).get "content" = translatedText := by
  unfold sendPayload
  split <;> split <;> simp [Json.get, jsLookup]

/-- C4: a translation invocation whose `text` or `targetLang` is empty or
absent (falsy) is an identity pass-through.  For the non-strict operation
`translateText` this holds for every world — the result is `text` itself under
any back-end behaviour, so no back-end call can influence it and no error is
signalled; for the send handler (the only caller of the strict mode), a falsy
`targetLang` skips the translation block entirely, for strict and non-strict
requests alike: the outcome agrees across worlds that only share the send
endpoint, and any payload actually sent carries the original `text` as its
`content`. -/
theorem translate_missing_input_is_identity (cfg : Config) (w w' : World)
    (text targetLang sourceLangArg promptArg body : Json)
    (h : text.truthy = false ∨ targetLang.truthy = false) :
    translateText cfg w text targetLang sourceLangArg promptArg = .ok text
  ∧ translateText cfg w' text targetLang sourceLangArg promptArg = .ok text
  ∧ ((body.get "targetLang").truthy = false → w.openphoneSend = w'.openphoneSend →
       postMessages cfg w body = postMessages cfg w' body)
  ∧ ((body.get "targetLang").truthy = false →
       ∀ p, (postMessages cfg w body).sent = some p → p.get "content" = body.get "text") := by
  refine ⟨?_, ?_, ?_, ?_⟩
  · unfold translateText
    rcases h with h | h <;> simp [h]
  · unfold translateText
    rcases h with h | h <;> simp [h]
  · intro htl hw
    unfold postMessages finishSend
    simp only [htl, hw, Bool.false_eq_true, if_false]
  · intro htl p hp
    unfold postMessages at hp
    simp only [htl, Bool.false_eq_true, if_false] at hp
    split at hp
    · exact absurd hp (by simp)
    · split at hp
      · exact absurd hp (by simp)
      · rw [finishSend_sent] at hp
        cases hp
        exact sendPayload_content ..

/-- Witness for C4 at a concrete input: an absent `targetLang` leaves the
text untouched. -/
theorem translate_missing_input_is_identity_witness :
    translateText cfgGoogle worldDown (Json.str "hi") Json.undef Json.undef Json.undef
      = .ok (Json.str "hi") :=
  (translate_missing_input_is_identity cfgGoogle worldDown worldDown
    (Json.str "hi") Json.undef Json.undef Json.undef (Json.obj []) (Or.inr (by rfl))).1

/-! ## C5 -/

/-- C5 (code bug): the DeepL request body is form-encoded and uppercases the
language codes as claimed, but when `sourceLang` is `"auto"` the
source-language field is NOT omitted: the ternary stores `undefined` in the
record, and the WHATWG `URLSearchParams` record conversion stringifies an
`undefined`-valued own enumerable property instead of dropping it, so the
body carries the literal pair `source_lang=undefined`. -/
theorem deepl_auto_source_sends_undefined_field :
    deeplRequestBody (Json.str "hi") (Json.str "pt") (Json.str "auto")
      = .ok [("text", "hi"), ("target_lang", "PT"), ("source_lang", "undefined")]
  ∧ ("source_lang", "undefined")
      ∈ [("text", "hi"), ("target_lang", "PT"), ("source_lang", "undefined")] := by
  refine ⟨?_, by simp⟩
  simp only [deeplRequestBody, jsToUpperCase, isAutoLang, urlSearchParamsOfRecord,
    List.map, jsToString]
  norm_num [strToUpper]
  exact ⟨by decide, by simp [jsToString]⟩

/-! ## C6 -/

/-- C6 counterexample: a conversations page whose `data` array contains a
`null` entry is not post-filtered to the single-participant entries — the
filter callback reads `participants` of `null`, throws, and the route's
`catch` answers 500 instead; in particular the result is not the filtered
page `[]` the claim requires. -/
theorem conversations_filter_null_entry_throws :
    conversationsFilter [Json.null]
      = .error "TypeError: Cannot read properties of null (reading participants)"
  ∧ conversationsFilter [Json.null] ≠ .ok [] := by
  refine ⟨by rfl, ?_⟩
  intro hcontra
  exact Except.noConfusion hcontra

theorem soloPred_eq_of_notNullish (c : Json) (h : jsNotNullish c = true) :
    soloPred c = .ok (isSoloConversation c) := by
  cases c with
  | null => simp [jsNotNullish] at h
  | undef => simp [jsNotNullish] at h
  | bool b => rfl
  | num n => rfl
  | str s => rfl
  | arr xs => rfl
  | obj fs =>
      simp only [soloPred, isSoloConversation, jsGetProp, Json.get]
      cases hj : jsLookup fs "participants" <;> rfl

theorem length_filter_not_filter (p : Json → Bool) (l : List Json) :
    (l.filter p).length + (l.filter (fun c => !p c)).length = l.length := by
  induction l with
  | nil => rfl
  | cons x xs ih =>
      cases h : p x <;> simp [List.filter, h] <;> omega

/-- C6 amended: on every conversations page whose `data` array contains no
nullish entry (on a `null`/`undefined` entry the filter callback throws and
the route answers 500 instead), the post-filter returns exactly the entries
whose `participants` field is an array of length 1, in their original order
(a sublist of the input), and the number of discarded entries equals the
input length minus the output length. -/
theorem conversations_filter_solo_only (convs : List Json)
    (h : convs.all jsNotNullish = true) :
    conversationsFilter convs = .ok (convs.filter isSoloConversation)
  ∧ (∀ c, c ∈ convs.filter isSoloConversation ↔ c ∈ convs ∧ isSoloConversation c = true)
  ∧ (convs.filter isSoloConversation).Sublist convs
  ∧ convs.length - (convs.filter isSoloConversation).length
      = (convs.filter (fun c => !isSoloConversation c)).length := by
  refine ⟨?_, fun c => List.mem_filter, List.filter_sublist convs, ?_⟩
  · induction convs with
    | nil => rfl
    | cons c rest ih =>
        simp only [List.all_cons, Bool.and_eq_true] at h
        rw [conversationsFilter, soloPred_eq_of_notNullish c h.1]
        cases hc : isSoloConversation c <;> simp [List.filter, hc, ih h.2]
  · have := length_filter_not_filter isSoloConversation convs
    omega

/-- Witness for C6 at a concrete page: the one-participant entry is kept, the
two-participant entry discarded. -/
theorem conversations_filter_solo_only_witness :
    conversationsFilter
        [Json.obj [("participants", Json.arr [Json.str "+15551230001"])],
         Json.obj [("participants", Json.arr [Json.str "+15551230001", Json.str "+15551230002"])]]
      = .ok [Json.obj [("participants", Json.arr [Json.str "+15551230001"])]] :=
  (conversations_filter_solo_only
    [Json.obj [("participants", Json.arr [Json.str "+15551230001"])],
     Json.obj [("participants", Json.arr [Json.str "+15551230001", Json.str "+15551230002"])]]
    (by rfl)).1

/-! ## C8 -/

/-- C8 counterexample: a webhook body whose `type` field is the number `5`
(non-string, non-nullish, without an `includes` method) is NOT answered
`200 {ok: true}`: the `includes` call throws a `TypeError`, the route's
`catch` fires, and the handler answers `500 {ok: false}`. -/
theorem webhook_numeric_type_responds_500 :
    (webhookOpenphone (fun (_ : Unit) _ => Except.ok ()) []
        (Json.obj [("type", Json.num 5)])).status = 500
  ∧ (webhookOpenphone (fun (_ : Unit) _ => Except.ok ()) []
        (Json.obj [("type", Json.num 5)])).respBody = Json.obj [("ok", Json.bool false)] :=
  ⟨rfl, rfl⟩

/-- C8 amended: whenever the evaluation of `event?.type?.includes('message')`
does not throw — in particular for every body whose `type` field is missing,
nullish, a string, or an array — the handler answers `200 {ok: true}` and
broadcasts exactly when that expression is truthy; a string `type` denotes a
message event exactly when it contains the substring `message`.  When the
`type` field is any other non-nullish value (number, boolean, object), the
`includes` call throws and the handler answers `500 {ok: false}` without
broadcasting. -/
theorem webhook_message_events_broadcast {α : Type} (write : α → String → Except String Unit)
    (clients : List α) (event : Json) :
    (∀ b, typeIncludesMessage event = .ok b →
        (webhookOpenphone write clients event).status = 200
      ∧ (webhookOpenphone write clients event).respBody = Json.obj [("ok", Json.bool true)]
      ∧ (webhookOpenphone write clients event).didBroadcast = b)
  ∧ (∀ e, typeIncludesMessage event = .error e →
        (webhookOpenphone write clients event).status = 500
      ∧ (webhookOpenphone write clients event).respBody = Json.obj [("ok", Json.bool false)]
      ∧ (webhookOpenphone write clients event).didBroadcast = false)
  ∧ (∀ s, event.get "type" = .str s →
        typeIncludesMessage event = .ok (strIncludesMessage s)) := by
  refine ⟨?_, ?_, ?_⟩
  · intro b hb
    unfold webhookOpenphone
    rw [hb]
    cases b <;> exact ⟨rfl, rfl, rfl⟩
  · intro e he
    unfold webhookOpenphone
    rw [he]
    exact ⟨rfl, rfl, rfl⟩
  · intro s hs
    cases event with
    | obj fs =>
        simp only [Json.get] at hs
        simp only [typeIncludesMessage, Json.get, hs]
    | null => exact absurd hs (by simp [Json.get])
    | undef => exact absurd hs (by simp [Json.get])
    | bool b => exact absurd hs (by simp [Json.get])
    | num n => exact absurd hs (by simp [Json.get])
    | str t => exact absurd hs (by simp [Json.get])
    | arr xs => exact absurd hs (by simp [Json.get])

/-- Witness for C8 at a concrete input: a `message.received` event is
answered 200 and broadcast. -/
theorem webhook_message_events_broadcast_witness :
    (webhookOpenphone (fun (_ : Unit) _ => Except.ok ()) []
        (Json.obj [("type", Json.str "message.received")])).status = 200
  ∧ (webhookOpenphone (fun (_ : Unit) _ => Except.ok ()) []
        (Json.obj [("type", Json.str "message.received")])).didBroadcast = true := by
  have h := (webhook_message_events_broadcast (fun (_ : Unit) _ => Except.ok ()) []
    (Json.obj [("type", Json.str "message.received")])).1 true (by rfl)
  exact ⟨h.1, h.2.2⟩

/-! ## C9 -/

/-- A configuration whose provider selector is set to a string the dispatch
does not recognize. -/
def cfgOther : Config :=
  ⟨some "MYMEMORY", none, none, none, none, none, none⟩

/-- C9: any value of the `TRANSLATE_PROVIDER` selector other than `DEEPL`,
`GOOGLE` and `OPENAI` — including the unset case, which resolves to the
default `LIBRE` — falls into the `default` arm of the dispatch `switch`: the
attempt runs the LibreTranslate back-end, and the whole non-strict
`translateText` call behaves exactly as it would with the selector set to
`LIBRE`. -/
theorem unrecognized_provider_uses_libre (cfg : Config) (w : World)
    (text targetLang sourceLangArg promptArg : Json)
    (h1 : cfg.TRANSLATE_PROVIDER ≠ "DEEPL")
    (h2 : cfg.TRANSLATE_PROVIDER ≠ "GOOGLE")
    (h3 : cfg.TRANSLATE_PROVIDER ≠ "OPENAI") :
    translateAttempt cfg w text targetLang sourceLangArg promptArg
      = translateWithLibre cfg w text targetLang sourceLangArg
  ∧ translateText cfg w text targetLang sourceLangArg promptArg
      = translateText (cfg.setProvider (some "LIBRE")) w text targetLang sourceLangArg promptArg := by
  have hatt : ∀ sl p : Json, translateAttempt cfg w text targetLang sl p
      = translateWithLibre cfg w text targetLang sl := by
    intro sl p
    unfold translateAttempt
    split <;> simp_all
  have hlib : ∀ sl p : Json, translateAttempt (cfg.setProvider (some "LIBRE")) w text targetLang sl p
      = translateWithLibre cfg w text targetLang sl := by
    intro sl p
    rfl
  refine ⟨hatt sourceLangArg promptArg, ?_⟩
  simp only [translateText]
  rw [hatt, hlib]

/-- Witness for C9: a selector set to `MYMEMORY` dispatches to the
LibreTranslate back-end. -/
theorem unrecognized_provider_uses_libre_witness :
    translateAttempt cfgOther worldDown (Json.str "hi") (Json.str "pt")
        (Json.str "auto") (Json.str "")
      = translateWithLibre cfgOther worldDown (Json.str "hi") (Json.str "pt") (Json.str "auto") :=
  (unrecognized_provider_uses_libre cfgOther worldDown (Json.str "hi") (Json.str "pt")
    (Json.str "auto") (Json.str "") (by decide) (by decide) (by decide)).1

/-! ## C10 -/

/-- C10: with `strict` set, the send handler's translation never consults the
configured provider selector — replacing the selector by any other value
leaves the whole outcome unchanged — and when a `targetLang` is present the
translation is the OpenAI back-end's: whenever `translateWithOpenAI` succeeds
with `v`, either the handler returned before the send call (a 400 guard) or
the payload it sent carries `v` as its `content`. -/
theorem strict_send_ignores_provider_selector (cfg : Config) (p' : Option String)
    (w : World) (body : Json)
    (hstrict : (body.get "strict").truthy = true) :
    postMessages cfg w body = postMessages (cfg.setProvider p') w body
  ∧ ((body.get "targetLang").truthy = true →
      ∀ v, translateWithOpenAI cfg w (body.get "text") (body.get "targetLang")
             (Json.str (sendTranslatePrompt (body.get "targetLang"))) = .ok v →
        (postMessages cfg w body).sent = none
        ∨ ∃ p, (postMessages cfg w body).sent = some p ∧ p.get "content" = v) := by
  constructor
  · unfold postMessages
    simp only [hstrict, if_true]
    rfl
  · intro htl v hok
    have hs : (postMessages cfg w body).sent = none
        ∨ (postMessages cfg w body).sent
            = some (sendPayload cfg (body.get "to") (body.get "userId") v
                (resolveFrom cfg (body.get "from"))) := by
      unfold postMessages
      simp only [htl, hstrict, hok, if_true]
      split
      · exact Or.inl rfl
      · split
        · exact Or.inl rfl
        · exact Or.inr (finishSend_sent ..)
    rcases hs with hs | hs
    · exact Or.inl hs
    · exact Or.inr ⟨_, hs, sendPayload_content ..⟩

/-- Witness for C10: swapping the selector from `GOOGLE` to `DEEPL` does not
change a strict send's outcome. -/
theorem strict_send_ignores_provider_selector_witness :
    postMessages cfgGoogle worldDown
        (Json.obj [("text", Json.str "oi"), ("to", Json.str "+15551230003"),
                   ("targetLang", Json.str "en"), ("strict", Json.bool true)])
      = postMessages (cfgGoogle.setProvider (some "DEEPL")) worldDown
        (Json.obj [("text", Json.str "oi"), ("to", Json.str "+15551230003"),
                   ("targetLang", Json.str "en"), ("strict", Json.bool true)]) :=
  (strict_send_ignores_provider_selector cfgGoogle (some "DEEPL") worldDown
    (Json.obj [("text", Json.str "oi"), ("to", Json.str "+15551230003"),
               ("targetLang", Json.str "en"), ("strict", Json.bool true)]) (by rfl)).1
